import Mathlib

/-!
Shallow embedding of the request-execution / token-cache core of the
`paypal-rs` crate (src/lib.rs, src/client.rs, src/endpoint.rs, src/errors.rs).

Modelling conventions:
* `std::time::Instant` and `std::time::Duration` are modelled as `Nat`
  (seconds); `Instant::elapsed()` is truncated subtraction `now - acquiredAt`,
  matching the saturating behaviour of the monotonic clock.
* The network is an oracle: the outcome of `send()` and the verdicts of the
  serde decodings of the one response body are data of the run
  (`SendOutcome`).  Every request the code issues is recorded in a trace.
* `reqwest::Error` is an external-crate type; we keep the two kinds the code
  can produce here: a transport-level failure from `send()` and a body-decode
  failure from `Response::json()` (reqwest tags the latter as decode errors).
* `jsonwebtoken::encode` and `base64::encode` are external crates, modelled
  symbolically: the header value records the fixed algorithm, the claims and
  the signing key the source passes to them.
* Panicking code (`assert!`, the always-slash token path) is modelled with the
  `Panics` result type.  Panic message texts paraphrase the quoted slash of
  the source messages as the word "slash".
-/

namespace Paypal

/-- src/lib.rs: `LIVE_ENDPOINT`. -/
def LIVE_ENDPOINT : String := "https://api-m.paypal.com"

/-- src/lib.rs: `SANDBOX_ENDPOINT`. -/
def SANDBOX_ENDPOINT : String := "https://api-m.sandbox.paypal.com"

/-- src/client.rs: `AccessToken` (the OAuth2 token JSON). `expires_in` is a
`u64` count of seconds. -/
structure AccessToken where
  scope : String
  access_token : String
  token_type : String
  app_id : String
  expires_in : Nat
  nonce : String
deriving DecidableEq

/-- src/client.rs: `Auth`.  `expires` is the
`Option<(Instant, Duration)>` pair, modelled in seconds. -/
structure Auth where
  client_id : String
  secret : String
  access_token : Option AccessToken
  expires : Option (Nat × Nat)
deriving DecidableEq

/-- src/client.rs: `PaypalEnv`. -/
inductive PaypalEnv where
  | Live
  | Sandbox
  | Mock (endpoint : String)
deriving DecidableEq

/-- src/client.rs: `Client`.  The embedded `reqwest::Client` handle carries no
state the core logic reads, so it is omitted. -/
structure Client where
  env : PaypalEnv
  auth : Auth
deriving DecidableEq

/-- Result of code that may panic (`assert!`, `expect`). -/
inductive Panics (α : Type) where
  | ok (value : α)
  | panicked (msg : String)
deriving DecidableEq

/-- Rust `target.starts_with('/')`: the first character is a slash. -/
def startsWithSlash (s : String) : Bool :=
  match s.data with
  | [] => false
  | c :: _ => c == '/'

/-- src/client.rs: `PaypalEnv::endpoint`. -/
def PaypalEnv.endpoint : PaypalEnv → String
  | .Live => LIVE_ENDPOINT
  | .Sandbox => SANDBOX_ENDPOINT
  | .Mock endpoint => endpoint

/-- src/client.rs: `PaypalEnv::make_url`.  The source asserts
`target.starts_with('/')` with message `target path must start with '/'` and
then returns `format!("{}{}", self.endpoint(), target)`. -/
def PaypalEnv.make_url (env : PaypalEnv) (target : String) : Panics String :=
  if startsWithSlash target then .ok (env.endpoint ++ target)
  else .panicked "target path must start with slash"

/-- src/data/common.rs: `LinkDescription` (only the fields the error payload
carries; the HTTP method is kept as a string). -/
structure LinkDescription where
  href : String
  rel : Option String
  method : Option String
deriving DecidableEq

/-- src/errors.rs: `PaypalError`, the structured provider error payload.
`Vec<HashMap<String, String>>` is modelled as a list of association lists. -/
structure PaypalError where
  name : String
  message : Option String
  debug_id : Option String
  details : List (List (String × String))
  error : Option String
  error_description : Option String
  links : List LinkDescription
deriving DecidableEq

/-- Model of the external `reqwest::Error` in the two kinds this crate can
produce: a network-level failure of `send()` and a body-deserialization
failure of `Response::json()`. -/
inductive ReqwestError where
  | transport (msg : String)
  | decode (msg : String)
deriving DecidableEq

/-- src/errors.rs: `ResponseError` — the error enum has exactly these two
variants; there is no separate decode-error variant. -/
inductive ResponseError where
  | ApiError (e : PaypalError)
  | HttpError (e : ReqwestError)
deriving DecidableEq

/-- The variant (constructor) of a `ResponseError`, i.e. the error category
the enum in src/errors.rs exposes to callers. -/
def ResponseError.category : ResponseError → String
  | .ApiError _ => "ApiError"
  | .HttpError _ => "HttpError"

/-- src/lib.rs: `Prefer`. -/
inductive Prefer where
  | Minimal
  | Representation
deriving DecidableEq

/-- src/lib.rs: `HeaderParams` with its `Default` impl (all options `None`,
`prefer` defaulting to `Prefer::Representation`). -/
structure HeaderParams where
  merchant_payer_id : Option String := none
  client_metadata_id : Option String := none
  partner_attribution_id : Option String := none
  request_id : Option String := none
  prefer : Prefer := .Representation
  content_type : Option String := none
deriving DecidableEq

/-- src/lib.rs: `AuthAssertionClaims`. -/
structure AuthAssertionClaims where
  iss : String
  payer_id : String
deriving DecidableEq

/-- The one algorithm src/client.rs ever passes to `jsonwebtoken`. -/
inductive JwtAlgorithm where
  | HS256
deriving DecidableEq

/-- A header value: a plain string, or the PayPal-Auth-Assertion value, which
the source computes as `base64::encode` of `jsonwebtoken::encode` applied to
`Header::new(Algorithm::HS256)`, the claims and
`EncodingKey::from_secret(secret)`.  The two external library calls are
modelled symbolically by recording exactly the data the source feeds them. -/
inductive HeaderValue where
  | str (value : String)
  | base64Jwt (alg : JwtAlgorithm) (claims : AuthAssertionClaims) (key : String)
deriving DecidableEq

/-- src/client.rs: `Client::setup_headers` (lines 121-172).  The source
returns `Result<RequestBuilder, ResponseError>` but every path returns `Ok`;
we model the headers it appends, in order.  Note line 165: the `Prefer`
header is appended unconditionally with value `return=representation`;
`header_params.prefer` is never read. -/
def Client.setup_headers (c : Client) (header_params : HeaderParams) :
    List (String × HeaderValue) :=
  [("Accept", .str "application/json")]
  ++ (match c.auth.access_token with
      | some token => [("Authorization", .str ("Bearer " ++ token.access_token))]
      | none => [])
  ++ (match header_params.merchant_payer_id with
      | some merchant_payer_id =>
        [("PayPal-Auth-Assertion",
          .base64Jwt .HS256 ⟨c.auth.client_id, merchant_payer_id⟩ c.auth.secret)]
      | none => [])
  ++ (match header_params.client_metadata_id with
      | some client_metadata_id =>
        [("PayPal-Client-Metadata-Id", .str client_metadata_id)]
      | none => [])
  ++ (match header_params.partner_attribution_id with
      | some partner_attribution_id =>
        [("PayPal-Partner-Attribution-Id", .str partner_attribution_id)]
      | none => [])
  ++ (match header_params.request_id with
      | some request_id => [("PayPal-Request-Id", .str request_id)]
      | none => [])
  ++ [("Prefer", .str "return=representation")]
  ++ (match header_params.content_type with
      | some content_type => [("Content-Type", .str content_type)]
      | none => [])

/-- src/lib.rs lines 321-324: the older in-`lib.rs` `setup_headers` maps the
`prefer` parameter to the `Prefer` header value with this match. -/
def prefer_header_value : Prefer → String
  | .Minimal => "return=minimal"
  | .Representation => "return=representation"

/-- src/client.rs: `Client::access_token_expired` at time `now`:
`expires.0.elapsed() >= expires.1` when a record exists, `true` otherwise. -/
def Client.access_token_expired (c : Client) (now : Nat) : Bool :=
  match c.auth.expires with
  | some expires => decide (expires.2 ≤ now - expires.1)
  | none => true

/-- HTTP methods (the crate uses `reqwest::Method`). -/
inductive Method where
  | GET
  | POST
  | PATCH
  | PUT
  | DELETE
deriving DecidableEq

/-- The token request built by `Client::get_access_token`
(src/client.rs lines 179-186), field by field. -/
structure TokenRequest where
  method : Method
  url : String
  basic_auth_user : String
  basic_auth_pass : String
  content_type : String
  accept : String
  body : String
deriving DecidableEq

/-- An API request built by `Client::execute_ext`. -/
structure ApiRequest where
  method : Method
  url : String
  headers : List (String × HeaderValue)
  body : Option String
deriving DecidableEq

/-- One HTTP request issued during a run: either the OAuth2 token-endpoint
POST of `get_access_token`, or an endpoint request of `execute_ext`. -/
inductive RequestEvent where
  | tokenRequest (req : TokenRequest)
  | apiRequest (req : ApiRequest)
deriving DecidableEq

/-- `true` when the trace contains a token-endpoint request, i.e. when the
run attempted a token refresh. -/
def hasTokenRefresh (trace : List RequestEvent) : Bool :=
  trace.any fun ev =>
    match ev with
    | .tokenRequest _ => true
    | .apiRequest _ => false

/-- The environment of one send: either `send()` fails with a reqwest error,
or a response arrives with a status code and the serde verdicts on its one
body — decoded as the expected success type, and decoded as `PaypalError`. -/
inductive SendOutcome (Response : Type) where
  | fail (e : ReqwestError)
  | response (status : Nat) (asResponse : Except String Response)
      (asError : Except String PaypalError)

/-- `reqwest::StatusCode::is_success`: 2xx. -/
def isSuccessStatus (status : Nat) : Bool :=
  decide (200 ≤ status) && decide (status < 300)

/-- src/client.rs: `Client::get_access_token` (lines 175-200) at time `now`
against the network environment `env`.  Returns the result, the client after
the call, and the trace of requests issued.  The cached path (line 176-178)
returns `Ok(())` before any request is built.  On the refresh path, the
acquisition instant and the validity duration are recorded (line 192) and the
token stored (line 193) only after the body decoded successfully. -/
def Client.get_access_token (c : Client) (now : Nat)
    (env : SendOutcome AccessToken) :
    Panics (Except ResponseError Unit × Client × List TokenRequest) :=
  if !c.access_token_expired now then
    .ok (.ok (), c, [])
  else
    match c.env.make_url "/v1/oauth2/token" with
    | .panicked msg => .panicked msg
    | .ok url =>
      let req : TokenRequest :=
        { method := .POST
          url := url
          basic_auth_user := c.auth.client_id
          basic_auth_pass := c.auth.secret
          content_type := "x-www-form-urlencoded"
          accept := "application/json"
          body := "grant_type=client_credentials" }
      match env with
      | .fail e => .ok (.error (.HttpError e), c, [req])
      | .response status asToken asError =>
        if isSuccessStatus status then
          match asToken with
          | .ok token =>
            .ok (.ok (),
              { c with auth := { c.auth with
                  access_token := some token
                  expires := some (now, token.expires_in) } },
              [req])
          | .error msg => .ok (.error (.HttpError (.decode msg)), c, [req])
        else
          match asError with
          | .ok perr => .ok (.error (.ApiError perr), c, [req])
          | .error msg => .ok (.error (.HttpError (.decode msg)), c, [req])

/-- The request trace of a `get_access_token` run. -/
def tokenTraceOf
    (r : Panics (Except ResponseError Unit × Client × List TokenRequest)) :
    List TokenRequest :=
  match r with
  | .ok (_, _, trace) => trace
  | .panicked _ => []

/-- src/endpoint.rs: the `Endpoint` trait, shallowly embedded.  The associated
`Query` and `Body` types and their serde serializations are represented by
their serialized forms: `query` is the `serde_qs::to_string` output the
dispatcher appends, `body` the JSON body; `Response: DeserializeOwned` is the
type parameter, its decoding carried by the `SendOutcome` oracle. -/
structure Endpoint (Response : Type) where
  relative_path : String
  method : Method
  query : Option String := none
  body : Option String := none

/-- src/endpoint.rs: `Endpoint::full_path` (lines 35-45): assert the relative
path starts with a slash, then prepend the sandbox or live endpoint. -/
def Endpoint.full_path {Response : Type} (e : Endpoint Response)
    (is_sandbox : Bool) : Panics String :=
  if startsWithSlash e.relative_path then
    .ok ((if is_sandbox then SANDBOX_ENDPOINT else LIVE_ENDPOINT)
      ++ e.relative_path)
  else .panicked "relative path must start with slash"

/-- src/client.rs: `Client::execute_ext` (lines 212-244) against the network
environment `env`.  Returns the result and the trace of requests issued.
Note that the method takes `&self`: it never calls `get_access_token`, and
line 224 calls the `setup_headers` of src/client.rs, which only reads the
cached token. -/
def Client.execute_ext {Response : Type} (c : Client)
    (endpoint : Endpoint Response) (headers : HeaderParams)
    (env : SendOutcome Response) :
    Panics (Except ResponseError Response) × List RequestEvent :=
  match c.env.make_url endpoint.relative_path with
  | .panicked msg => (.panicked msg, [])
  | .ok base =>
    let url : String :=
      match endpoint.query with
      | some query_string => base ++ query_string
      | none => base
    let req : ApiRequest :=
      { method := endpoint.method
        url := url
        headers := c.setup_headers headers
        body := endpoint.body }
    match env with
    | .fail e => (.ok (.error (.HttpError e)), [.apiRequest req])
    | .response status asResponse asError =>
      if isSuccessStatus status then
        match asResponse with
        | .ok response_body => (.ok (.ok response_body), [.apiRequest req])
        | .error msg =>
          (.ok (.error (.HttpError (.decode msg))), [.apiRequest req])
      else
        match asError with
        | .ok perr => (.ok (.error (.ApiError perr)), [.apiRequest req])
        | .error msg =>
          (.ok (.error (.HttpError (.decode msg))), [.apiRequest req])

/-- src/client.rs: `Client::execute` (lines 249-254): `execute_ext` with
`HeaderParams::default()`. -/
def Client.execute {Response : Type} (c : Client)
    (endpoint : Endpoint Response) (env : SendOutcome Response) :
    Panics (Except ResponseError Response) × List RequestEvent :=
  c.execute_ext endpoint {} env

/-- The category of the error of an `execute_ext` result, when it is one. -/
def categoryOfResult {Response : Type}
    (r : Panics (Except ResponseError Response)) : Option String :=
  match r with
  | .ok (.error e) => some e.category
  | _ => none

/-! Concrete sample values used by witnesses and counterexamples. -/

/-- A sample decoded OAuth2 token. -/
def sampleToken : AccessToken :=
  { scope := "openid"
    access_token := "A1B2"
    token_type := "Bearer"
    app_id := "APP-1"
    expires_in := 3600
    nonce := "nonce" }

/-- A client that has never acquired a token (as `Client::new` builds it). -/
def sampleClientFresh : Client :=
  { env := .Mock "http://localhost:8080"
    auth := { client_id := "clientid"
              secret := "secret"
              access_token := none
              expires := none } }

/-- A client holding a token acquired at instant 0, valid for 3600 s. -/
def sampleClientValid : Client :=
  { env := .Sandbox
    auth := { client_id := "clientid"
              secret := "secret"
              access_token := some sampleToken
              expires := some (0, 3600) } }

/-- A sample endpoint descriptor with a well-formed relative path. -/
def sampleEndpoint : Endpoint Nat :=
  { relative_path := "/v2/checkout/orders"
    method := .POST
    body := some "{}" }

/-- The client `sampleClientFresh` becomes after a successful refresh at
instant 0 that decoded `sampleToken`. -/
def sampleClientRefreshed : Client :=
  { sampleClientFresh with auth := { sampleClientFresh.auth with
      access_token := some sampleToken
      expires := some (0, sampleToken.expires_in) } }

/-- The token request `sampleClientFresh.get_access_token` issues. -/
def sampleTokenRequest : TokenRequest :=
  { method := .POST
    url := "http://localhost:8080/v1/oauth2/token"
    basic_auth_user := "clientid"
    basic_auth_pass := "secret"
    content_type := "x-www-form-urlencoded"
    accept := "application/json"
    body := "grant_type=client_credentials" }

/-- The token-endpoint path always passes the slash assertion of `make_url`. -/
theorem make_url_token (env : PaypalEnv) :
    env.make_url "/v1/oauth2/token" = .ok (env.endpoint ++ "/v1/oauth2/token") := by
  have h : startsWithSlash "/v1/oauth2/token" = true := by decide
  simp [PaypalEnv.make_url, h]

/-- C3: `access_token_expired` returns true iff no expiry record exists or the
elapsed time since the recorded acquisition instant is at least the recorded
validity duration.  The embedding is a pure function of the client state and
the clock, matching the side-effect-free `&self` method. -/
theorem access_token_expired_iff (c : Client) (now : Nat) :
    c.access_token_expired now = true ↔
      c.auth.expires = none ∨
        ∃ acquiredAt validity,
          c.auth.expires = some (acquiredAt, validity) ∧
            validity ≤ now - acquiredAt := by
  rcases hx : c.auth.expires with - | ⟨acquiredAt, validity⟩
  · simp [Client.access_token_expired, hx]
  · have hval : c.access_token_expired now =
        decide (validity ≤ now - acquiredAt) := by
      simp [Client.access_token_expired, hx]
    rw [hval]
    simp only [decide_eq_true_eq, Option.some.injEq, Prod.mk.injEq]
    constructor
    · intro h
      exact .inr ⟨acquiredAt, validity, ⟨rfl, rfl⟩, h⟩
    · rintro (hnone | ⟨a, v, ⟨rfl, rfl⟩, h⟩)
      · exact absurd hnone (by simp)
      · exact h

/-- C2: when the cached token is not expired, `get_access_token` returns
`Ok(())` at once, issues no request, and leaves the client unchanged. -/
theorem get_access_token_cached (c : Client) (now : Nat)
    (env : SendOutcome AccessToken)
    (h : c.access_token_expired now = false) :
    c.get_access_token now env = .ok (.ok (), c, []) := by
  simp [Client.get_access_token, h]

/-- Witness for C2 at a concrete unexpired client state. -/
theorem get_access_token_cached_witness :
    sampleClientValid.get_access_token 50 (.fail (.transport "down")) =
      .ok (.ok (), sampleClientValid, []) :=
  get_access_token_cached sampleClientValid 50 (.fail (.transport "down"))
    (by decide)

/-- C5 (amended): a refresh issues exactly one POST to the token path under
the configured environment base, with Basic auth from the client id and
secret, Content-Type `x-www-form-urlencoded`, and body
`grant_type=client_credentials`. -/
theorem get_access_token_single_post (c : Client) (now : Nat)
    (env : SendOutcome AccessToken)
    (h : c.access_token_expired now = true) :
    tokenTraceOf (c.get_access_token now env) =
      [{ method := .POST
         url := c.env.endpoint ++ "/v1/oauth2/token"
         basic_auth_user := c.auth.client_id
         basic_auth_pass := c.auth.secret
         content_type := "x-www-form-urlencoded"
         accept := "application/json"
         body := "grant_type=client_credentials" }] := by
  rw [Client.get_access_token, h, make_url_token]
  cases env with
  | fail e => simp [tokenTraceOf]
  | response status asToken asError =>
    by_cases hs : isSuccessStatus status = true
    · cases asToken <;> simp [tokenTraceOf, hs]
    · cases asError <;> simp [tokenTraceOf, hs]

/-- Witness for C5 at a concrete expired (fresh) client state. -/
theorem get_access_token_single_post_witness :
    tokenTraceOf (sampleClientFresh.get_access_token 0
        (.fail (.transport "down"))) =
      [{ method := .POST
         url := sampleClientFresh.env.endpoint ++ "/v1/oauth2/token"
         basic_auth_user := sampleClientFresh.auth.client_id
         basic_auth_pass := sampleClientFresh.auth.secret
         content_type := "x-www-form-urlencoded"
         accept := "application/json"
         body := "grant_type=client_credentials" }] :=
  get_access_token_single_post sampleClientFresh 0 (.fail (.transport "down"))
    (by decide)

/-- C5 counterexample: the token request carries Content-Type
`x-www-form-urlencoded`, not `application/x-www-form-urlencoded` as the claim
states (src/client.rs line 183; the wiremock test asserts the same value). -/
theorem get_access_token_content_type_cex :
    (tokenTraceOf (sampleClientFresh.get_access_token 0
        (.fail (.transport "down")))).map TokenRequest.content_type =
      ["x-www-form-urlencoded"] ∧
    ("x-www-form-urlencoded" : String) ≠ "application/x-www-form-urlencoded" := by
  decide

/-- C10: `get_access_token` leaves the client exactly as it was whenever it
returns an error; on the `Ok` path the state is either untouched (cached
path) or the token and the expiry pair are written together from the decoded
token, leaving every other field unchanged. -/
theorem get_access_token_mutation (c : Client) (now : Nat)
    (env : SendOutcome AccessToken) (res : Except ResponseError Unit)
    (c' : Client) (trace : List TokenRequest)
    (h : c.get_access_token now env = .ok (res, c', trace)) :
    ((∃ e, res = .error e) → c' = c) ∧
    (res = .ok () →
      c' = c ∨
        ∃ status token asError,
          env = .response status (.ok token) asError ∧
            isSuccessStatus status = true ∧
            c' = { c with auth := { c.auth with
                access_token := some token
                expires := some (now, token.expires_in) } }) := by
  rw [Client.get_access_token] at h
  by_cases hx : c.access_token_expired now
  · rw [hx, make_url_token] at h
    simp only [Bool.not_true, Bool.false_eq_true, if_false] at h
    cases env with
    | fail e =>
      simp only [Panics.ok.injEq, Prod.mk.injEq] at h
      obtain ⟨h1, h2, -⟩ := h
      subst h1; subst h2
      exact ⟨fun _ => rfl, by simp⟩
    | response status asToken asError =>
      cases hs : isSuccessStatus status with
      | true =>
        cases asToken with
        | ok token =>
          simp only [hs, if_true, Panics.ok.injEq, Prod.mk.injEq] at h
          obtain ⟨h1, h2, -⟩ := h
          subst h1; subst h2
          refine ⟨by simp, fun _ => .inr ⟨status, token, asError, rfl, hs, rfl⟩⟩
        | error msg =>
          simp only [hs, if_true, Panics.ok.injEq, Prod.mk.injEq] at h
          obtain ⟨h1, h2, -⟩ := h
          subst h1; subst h2
          exact ⟨fun _ => rfl, by simp⟩
      | false =>
        cases asError with
        | ok perr =>
          simp [hs] at h
          obtain ⟨h1, h2, -⟩ := h
          subst h1; subst h2
          exact ⟨fun _ => rfl, by simp⟩
        | error msg =>
          simp [hs] at h
          obtain ⟨h1, h2, -⟩ := h
          subst h1; subst h2
          exact ⟨fun _ => rfl, by simp⟩
  · rw [eq_false_of_ne_true hx] at h
    simp only [Bool.not_false, if_true, Panics.ok.injEq, Prod.mk.injEq] at h
    obtain ⟨h1, h2, -⟩ := h
    subst h1; subst h2
    exact ⟨fun hcontra => by simp at hcontra, fun _ => .inl rfl⟩

/-- Witness for C10 on the concrete successful-refresh run. -/
theorem get_access_token_mutation_witness :
    ((∃ e, (Except.ok () : Except ResponseError Unit) = .error e) →
      sampleClientRefreshed = sampleClientFresh) ∧
    ((Except.ok () : Except ResponseError Unit) = .ok () →
      sampleClientRefreshed = sampleClientFresh ∨
        ∃ status token asError,
          (SendOutcome.response 200 (.ok sampleToken) (.error "nobody") :
              SendOutcome AccessToken) = .response status (.ok token) asError ∧
            isSuccessStatus status = true ∧
            sampleClientRefreshed =
              { sampleClientFresh with auth := { sampleClientFresh.auth with
                  access_token := some token
                  expires := some (0, token.expires_in) } }) :=
  get_access_token_mutation sampleClientFresh 0
    (.response 200 (.ok sampleToken) (.error "nobody")) (.ok ())
    sampleClientRefreshed [sampleTokenRequest] (by rfl)

/-- C4: with a response received, `execute_ext` succeeds iff the status is
2xx and the body decodes as the declared response type, yields `ApiError`
iff the status is not 2xx and the body decodes as the provider error
payload, and a send failure is always wrapped in the `HttpError` variant. -/
theorem execute_ext_result {Response : Type} (c : Client)
    (endpoint : Endpoint Response) (params : HeaderParams) (status : Nat)
    (asResponse : Except String Response) (asError : Except String PaypalError)
    (hp : startsWithSlash endpoint.relative_path = true) :
    (∀ r, (c.execute_ext endpoint params (.response status asResponse asError)).1 =
        .ok (.ok r) ↔ isSuccessStatus status = true ∧ asResponse = .ok r) ∧
    (∀ p, (c.execute_ext endpoint params (.response status asResponse asError)).1 =
        .ok (.error (.ApiError p)) ↔
          isSuccessStatus status = false ∧ asError = .ok p) ∧
    (∀ terr, (c.execute_ext endpoint params (.fail terr)).1 =
        .ok (.error (.HttpError terr))) := by
  have hmu : c.env.make_url endpoint.relative_path =
      .ok (c.env.endpoint ++ endpoint.relative_path) := by
    simp [PaypalEnv.make_url, hp]
  refine ⟨fun r => ?_, fun p => ?_, fun terr => ?_⟩
  · by_cases hs : isSuccessStatus status = true
    · cases asResponse <;> simp [Client.execute_ext, hmu, hs]
    · cases asError <;>
        simp [Client.execute_ext, hmu, eq_false_of_ne_true hs, hs]
  · by_cases hs : isSuccessStatus status = true
    · cases asResponse <;> simp [Client.execute_ext, hmu, hs]
    · cases asError <;>
        simp [Client.execute_ext, hmu, eq_false_of_ne_true hs, hs]
  · simp [Client.execute_ext, hmu]

/-- Witness for C4 at a concrete endpoint, status and pair of decodings. -/
theorem execute_ext_result_witness :
    (∀ r, (sampleClientFresh.execute_ext sampleEndpoint {}
        (.response 201 (.ok 7) (.error "not an error body"))).1 =
        .ok (.ok r) ↔
          isSuccessStatus 201 = true ∧
            (Except.ok 7 : Except String Nat) = .ok r) ∧
    (∀ p, (sampleClientFresh.execute_ext sampleEndpoint {}
        (.response 201 (.ok 7) (.error "not an error body"))).1 =
        .ok (.error (.ApiError p)) ↔
          isSuccessStatus 201 = false ∧
            (Except.error "not an error body" : Except String PaypalError) = .ok p) ∧
    (∀ terr, (sampleClientFresh.execute_ext sampleEndpoint {} (.fail terr)).1 =
        .ok (.error (.HttpError terr))) :=
  execute_ext_result sampleClientFresh sampleEndpoint {} 201 (.ok 7)
    (.error "not an error body") (by decide)

/-- C7 (amended): a body that fails to decode — the success body on a 2xx
status, or the error body otherwise — always surfaces to the caller as
`ResponseError::HttpError` wrapping the reqwest decode error; it is never
ignored.  The error enum of src/errors.rs has exactly the two categories
`ApiError` and `HttpError`: there is no distinct decode-error variant. -/
theorem decode_failure_surfaced {Response : Type} (c : Client)
    (endpoint : Endpoint Response) (params : HeaderParams) (status : Nat)
    (asResponse : Except String Response) (asError : Except String PaypalError)
    (msg : String)
    (hp : startsWithSlash endpoint.relative_path = true)
    (hd : (isSuccessStatus status = true ∧ asResponse = .error msg) ∨
          (isSuccessStatus status = false ∧ asError = .error msg)) :
    (c.execute_ext endpoint params (.response status asResponse asError)).1 =
      .ok (.error (.HttpError (.decode msg))) ∧
    ∀ err : ResponseError,
      err.category = "ApiError" ∨ err.category = "HttpError" := by
  have hmu : c.env.make_url endpoint.relative_path =
      .ok (c.env.endpoint ++ endpoint.relative_path) := by
    simp [PaypalEnv.make_url, hp]
  constructor
  · rcases hd with ⟨hs, hb⟩ | ⟨hs, hb⟩
    · subst hb; simp [Client.execute_ext, hmu, hs]
    · subst hb; simp [Client.execute_ext, hmu, hs]
  · intro err; cases err <;> simp [ResponseError.category]

/-- Witness for C7 on a concrete 200 response whose body does not decode. -/
theorem decode_failure_surfaced_witness :
    (sampleClientFresh.execute_ext sampleEndpoint {}
        (.response 200 (.error "malformed body") (.error "malformed body"))).1 =
      .ok (.error (.HttpError (.decode "malformed body"))) ∧
    ∀ err : ResponseError,
      err.category = "ApiError" ∨ err.category = "HttpError" :=
  decode_failure_surfaced sampleClientFresh sampleEndpoint {} 200
    (.error "malformed body") (.error "malformed body") "malformed body"
    (by decide) (.inl ⟨by decide, rfl⟩)

/-- C7 counterexample: a decode failure is surfaced in the very same
`HttpError` category as a network-level transport failure — not in a
category of its own, as the claim states. -/
theorem decode_error_same_category_cex :
    categoryOfResult ((sampleClientFresh.execute_ext sampleEndpoint {}
        (.response 200 (.error "malformed body") (.error "malformed body") :
          SendOutcome Nat)).1) = some "HttpError" ∧
    categoryOfResult ((sampleClientFresh.execute_ext sampleEndpoint {}
        (.fail (.transport "connection reset") : SendOutcome Nat)).1) =
      some "HttpError" := by
  decide

/-- C6 (code bug): the dispatcher of src/client.rs appends the `Prefer`
header with the fixed value `return=representation`, ignoring the documented
`prefer` field of `HeaderParams` — here evaluated at `Prefer::Minimal` —
whereas the older dispatcher (src/lib.rs lines 321-324, `prefer_header_value`)
maps `Minimal` to `return=minimal`. -/
theorem prefer_minimal_ignored :
    List.lookup "Prefer"
        (sampleClientFresh.setup_headers { prefer := .Minimal }) =
      some (.str "return=representation") ∧
    prefer_header_value .Minimal = "return=minimal" := by
  decide

/-- C8: the `PayPal-Auth-Assertion` header is present exactly when a merchant
payer id is supplied, and its value is the base64 encoding of the HS256-signed
token over the claims (issuer = configured client id, payer id = the supplied
override) with the client secret as the key. -/
theorem auth_assertion_header (c : Client) (params : HeaderParams) :
    List.lookup "PayPal-Auth-Assertion" (c.setup_headers params) =
      params.merchant_payer_id.map
        (fun payer_id =>
          HeaderValue.base64Jwt .HS256 ⟨c.auth.client_id, payer_id⟩
            c.auth.secret) := by
  rcases params with ⟨m, cm, pa, ri, pref, ct⟩
  rcases c with ⟨cenv, cid, csec, ctok, cexp⟩
  cases m <;> cases cm <;> cases pa <;> cases ri <;> cases ct <;>
    cases ctok <;> simp [Client.setup_headers, List.lookup]

/-- C9: `make_url` panics (assertion-style, not a typed error) exactly on
relative paths that do not begin with a slash, returns the environment base
concatenated with the path otherwise, and `Endpoint::full_path` agrees with
`make_url` of the corresponding environment on well-formed paths and panics
on ill-formed ones. -/
theorem make_url_full_path_spec (env : PaypalEnv) (target : String)
    {Response : Type} (endpoint : Endpoint Response) (is_sandbox : Bool) :
    (startsWithSlash target = false →
      env.make_url target = .panicked "target path must start with slash") ∧
    (startsWithSlash target = true →
      env.make_url target = .ok (env.endpoint ++ target)) ∧
    (startsWithSlash endpoint.relative_path = false →
      endpoint.full_path is_sandbox =
        .panicked "relative path must start with slash") ∧
    (startsWithSlash endpoint.relative_path = true →
      endpoint.full_path is_sandbox =
        (if is_sandbox then PaypalEnv.Sandbox else PaypalEnv.Live).make_url
          endpoint.relative_path) := by
  refine ⟨fun hf => ?_, fun ht => ?_, fun hf => ?_, fun ht => ?_⟩
  · simp [PaypalEnv.make_url, hf]
  · simp [PaypalEnv.make_url, ht]
  · simp [Endpoint.full_path, hf]
  · cases is_sandbox <;>
      simp [Endpoint.full_path, PaypalEnv.make_url, PaypalEnv.endpoint, ht]

/-- Witness for C9 at concrete well-formed and ill-formed paths. -/
theorem make_url_full_path_spec_witness :
    PaypalEnv.Sandbox.make_url "v1/oauth2/token" =
      .panicked "target path must start with slash" ∧
    PaypalEnv.Sandbox.make_url "/v1/oauth2/token" =
      .ok (SANDBOX_ENDPOINT ++ "/v1/oauth2/token") ∧
    sampleEndpoint.full_path true =
      (if true then PaypalEnv.Sandbox else PaypalEnv.Live).make_url
        sampleEndpoint.relative_path :=
  ⟨(make_url_full_path_spec .Sandbox "v1/oauth2/token" sampleEndpoint true).1
      (by decide),
    (make_url_full_path_spec .Sandbox "/v1/oauth2/token" sampleEndpoint true).2.1
      (by decide),
    (make_url_full_path_spec .Sandbox "/v1/oauth2/token" sampleEndpoint true).2.2.2
      (by decide)⟩

/-- C1 (amended): `execute_ext` never attempts a token refresh — no request
to the token endpoint appears in its trace — and the dispatch does not read
the expiry record at all: replacing it with any other value changes nothing
about the request sent or the result. -/
theorem execute_ext_no_refresh {Response : Type} (c : Client)
    (endpoint : Endpoint Response) (params : HeaderParams)
    (env : SendOutcome Response) (other_expires : Option (Nat × Nat)) :
    hasTokenRefresh (c.execute_ext endpoint params env).2 = false ∧
    ({ c with auth := { c.auth with expires := other_expires } } : Client).execute_ext
        endpoint params env =
      c.execute_ext endpoint params env := by
  constructor
  · rw [Client.execute_ext]
    cases hm : c.env.make_url endpoint.relative_path with
    | panicked msg => simp [hasTokenRefresh]
    | ok base =>
      cases env with
      | fail e => simp [hasTokenRefresh]
      | response status asResponse asError =>
        by_cases hs : isSuccessStatus status = true
        · cases asResponse <;> simp [hasTokenRefresh, hs]
        · cases asError <;> simp [hasTokenRefresh, hs]
  · rcases c with ⟨cenv, cid, csec, ctok, cexp⟩
    rfl

/-- C1 counterexample: a concrete client whose token cache is absent (so
`access_token_expired` holds) on which `execute_ext` still sends the endpoint
request, with no token refresh anywhere in the trace. -/
theorem execute_ext_sends_while_expired_cex :
    sampleClientFresh.access_token_expired 0 = true ∧
    (sampleClientFresh.execute_ext sampleEndpoint {}
        (.response 201 (.ok 7) (.error "not an error body"))).2 ≠ [] ∧
    hasTokenRefresh (sampleClientFresh.execute_ext sampleEndpoint {}
        (.response 201 (.ok 7) (.error "not an error body"))).2 = false := by
  decide

end Paypal
